import Mathlib

/-!
# Verification of the churn cohort-aggregation engine (`backend/analytics.py`)

Shallow embedding of `ChurnAnalyzer` (the cohort aggregator) over an explicit
event log.  SQL result sets are modelled as Lean lists/finsets, `user_hash`
values as naturals, timestamps at the granularity the queries use them
(calendar month for the churn CTEs, absolute day index for the inactivity and
reactivation date comparisons, day-of-week for the weekday strategy), and
Python floats as exact rationals.
-/

namespace Churn

/-- A calendar month, i.e. a `YYYY-MM` string as produced by
`strftime('%Y-%m', created_at)` and parsed by `_get_previous_month`. -/
structure Month where
  year : Nat
  month : Nat
deriving DecidableEq, Repr

/-- Numeric key realizing the lexicographic order of zero-padded `YYYY-MM`
strings (month fits in two digits). -/
def Month.key (m : Month) : Nat := m.year * 100 + m.month

/-- One row of the `events` table, as consumed by the analytics queries:
`user_hash` (`user`), the `strftime('%Y-%m')` truncation of `created_at`
(`month`), the timestamp as an absolute day index (`day`, used only by the
date comparisons of the inactivity/reactivation queries), the
`strftime('%w')` day of week (`dow`, `0` = Sunday .. `6` = Saturday), and the
three categorical attributes, with `none` modelling SQL `NULL`. -/
structure Event where
  user : Nat
  month : Month
  day : Nat
  dow : Fin 7
  gender : Option String
  age_band : Option String
  channel : Option String
deriving DecidableEq, Repr

/-- Event literal helper for the concrete logs used by the witnesses. -/
def ev (u y mo d : Nat) (w : Fin 7) : Event :=
  { user := u, month := ⟨y, mo⟩, day := d, dow := w,
    gender := some "M", age_band := some "20s", channel := some "web" }

/-- `COUNT(*)` of one user's events in one month — the per-group count of the
`monthly_users` CTE of `get_monthly_metrics`, before its `HAVING` filter. -/
def eventCount (db : List Event) (m : Month) (u : Nat) : Nat :=
  db.countP (fun e => decide (e.month = m ∧ e.user = u))

/-- The distinct `user_hash` values of the event log. -/
def allUsers (db : List Event) : Finset Nat := (db.map Event.user).toFinset

/-- Active-user set of a month at a threshold: the `monthly_users` CTE
(`GROUP BY month, user_hash HAVING COUNT(*) >= :threshold`) restricted to one
month, as a set of users. -/
def activeSet (db : List Event) (m : Month) (threshold : Nat) : Finset Nat :=
  (allUsers db).filter (fun u => threshold ≤ eventCount db m u)

/-- `_get_previous_month` (analytics.py:610-616).  The `YYYY-MM` string
parsing/formatting is elided; the arithmetic on `(year, month_num)` is the
source's: month 1 maps to `(year-1, 12)`, any other month decrements. -/
def getPreviousMonth (m : Month) : Month :=
  if m.month = 1 then ⟨m.year - 1, 12⟩ else ⟨m.year, m.month - 1⟩

/-- Python's `round(x, 1)`: scale by ten, round to an integer, scale back.
The embedding computes over `ℚ` with Mathlib's `round`; none of the claims
below depends on the treatment of exact `.05` ties (CPython rounds floats
half-to-even). -/
def roundTo1 (q : ℚ) : ℚ := ((round (q * 10) : ℤ) : ℚ) / 10

/-- The dictionary returned by `get_monthly_metrics` (analytics.py:212-226),
restricted to the fields its own SQL query and rate arithmetic compute.
(`reactivated_users` and `long_term_inactive` come from helper calls modelled
separately; the first of them raises `AttributeError`, see claim C2.) -/
structure Metrics where
  month : Month
  active_users : Nat
  previous_active_users : Nat
  churned_users : Nat
  retained_users : Nat
  churn_rate : ℚ
  retention_rate : ℚ
deriving DecidableEq, Repr

/-- The metric computation of `get_monthly_metrics` (analytics.py:142-226):
CTEs `current_active` / `previous_active`, `churned` (the
`LEFT JOIN ... WHERE c.user_hash IS NULL` set difference), `retained` (the
`INNER JOIN` intersection), then the Python-side rate arithmetic with its
zero-denominator guard and `round(_, 1)`. -/
def getMonthlyMetrics (db : List Event) (m : Month) (threshold : Nat) : Metrics :=
  let currentActive := activeSet db m threshold
  let previousActive := activeSet db (getPreviousMonth m) threshold
  let churned := previousActive \ currentActive
  let retained := previousActive ∩ currentActive
  let churnRate : ℚ :=
    if 0 < previousActive.card then (churned.card : ℚ) / previousActive.card * 100 else 0
  let retentionRate : ℚ :=
    if 0 < previousActive.card then (retained.card : ℚ) / previousActive.card * 100 else 0
  { month := m
    active_users := currentActive.card
    previous_active_users := previousActive.card
    churned_users := churned.card
    retained_users := retained.card
    churn_rate := roundTo1 churnRate
    retention_rate := roundTo1 retentionRate }

/-- Event log of spec §8's worked example: users 1-4 each active in 2024-01,
and users 1, 2 plus the new user 5 active in 2024-02. -/
def sampleDb : List Event :=
  [ ev 1 2024 1 10 1, ev 2 2024 1 11 2, ev 3 2024 1 12 3, ev 4 2024 1 13 4,
    ev 1 2024 2 41 1, ev 2 2024 2 42 2, ev 5 2024 2 45 3 ]

/-- **C1.** For every event log, period `P` and threshold `T ≥ 1`, the result
of `get_monthly_metrics` satisfies
`retained_users + churned_users = previous_active_users` exactly, where
churned is the set difference previous-active minus current-active and
retained is their intersection. -/
theorem C1_retained_add_churned (db : List Event) (P : Month) (T : Nat) (_hT : 1 ≤ T) :
    (getMonthlyMetrics db P T).retained_users + (getMonthlyMetrics db P T).churned_users
        = (getMonthlyMetrics db P T).previous_active_users ∧
    (getMonthlyMetrics db P T).churned_users
        = (activeSet db (getPreviousMonth P) T \ activeSet db P T).card ∧
    (getMonthlyMetrics db P T).retained_users
        = (activeSet db (getPreviousMonth P) T ∩ activeSet db P T).card := by
  exact ⟨Finset.card_inter_add_card_sdiff (activeSet db (getPreviousMonth P) T) (activeSet db P T),
    rfl, rfl⟩

/-- Witness for C1 on the spec §8 example log at `P = 2024-02`, `T = 1`:
retained 2 + churned 2 = previous-active 4. -/
theorem C1_retained_add_churned_witness :
    (getMonthlyMetrics sampleDb ⟨2024, 2⟩ 1).retained_users
        + (getMonthlyMetrics sampleDb ⟨2024, 2⟩ 1).churned_users
      = (getMonthlyMetrics sampleDb ⟨2024, 2⟩ 1).previous_active_users ∧
    (getMonthlyMetrics sampleDb ⟨2024, 2⟩ 1).previous_active_users = 4 ∧
    (getMonthlyMetrics sampleDb ⟨2024, 2⟩ 1).retained_users = 2 ∧
    (getMonthlyMetrics sampleDb ⟨2024, 2⟩ 1).churned_users = 2 :=
  ⟨(C1_retained_add_churned sampleDb ⟨2024, 2⟩ 1 (by decide)).1, by decide, by decide, by decide⟩

/-- **C4.** Threshold monotonicity: for `T2 > T1` the active-user set at
threshold `T2` is a subset of the active-user set at `T1`, and therefore
`active_users(P, T2) ≤ active_users(P, T1)`. -/
theorem C4_threshold_monotone (db : List Event) (P : Month) (T1 T2 : Nat) (h : T1 < T2) :
    activeSet db P T2 ⊆ activeSet db P T1 ∧
    (getMonthlyMetrics db P T2).active_users ≤ (getMonthlyMetrics db P T1).active_users := by
  have hsub : activeSet db P T2 ⊆ activeSet db P T1 := by
    intro u hu
    simp only [activeSet, Finset.mem_filter] at hu ⊢
    exact ⟨hu.1, le_trans h.le hu.2⟩
  exact ⟨hsub, Finset.card_le_card hsub⟩

/-- Witness for C4 on the example log with `T1 = 1 < T2 = 2`: every 2024-02
user has a single event, so the threshold-2 active set is empty (count 0 ≤ 3),
matching spec §8's threshold-exclusion example. -/
theorem C4_threshold_monotone_witness :
    activeSet sampleDb ⟨2024, 2⟩ 2 ⊆ activeSet sampleDb ⟨2024, 2⟩ 1 ∧
    (getMonthlyMetrics sampleDb ⟨2024, 2⟩ 2).active_users
        ≤ (getMonthlyMetrics sampleDb ⟨2024, 2⟩ 1).active_users ∧
    (getMonthlyMetrics sampleDb ⟨2024, 2⟩ 2).active_users = 0 ∧
    (getMonthlyMetrics sampleDb ⟨2024, 2⟩ 1).active_users = 3 :=
  ⟨(C4_threshold_monotone sampleDb ⟨2024, 2⟩ 1 2 (by decide)).1,
   (C4_threshold_monotone sampleDb ⟨2024, 2⟩ 1 2 (by decide)).2, by decide, by decide⟩

/-! ## Rounding lemmas for the rate arithmetic -/

theorem roundTo1_mono {a b : ℚ} (h : a ≤ b) : roundTo1 a ≤ roundTo1 b := by
  have hr : round (a * 10) ≤ round (b * 10) := by
    rw [round_eq, round_eq]
    exact Int.floor_le_floor (by linarith)
  have hq : ((round (a * 10) : ℤ) : ℚ) ≤ ((round (b * 10) : ℤ) : ℚ) := by exact_mod_cast hr
  unfold roundTo1
  linarith

theorem roundTo1_zero : roundTo1 0 = 0 := by
  simp [roundTo1]

theorem roundTo1_hundred : roundTo1 100 = 100 := by
  norm_num [roundTo1, round_eq]

theorem roundTo1_nonneg {q : ℚ} (h : 0 ≤ q) : 0 ≤ roundTo1 q := by
  simpa [roundTo1_zero] using roundTo1_mono h

theorem roundTo1_le_hundred {q : ℚ} (h : q ≤ 100) : roundTo1 q ≤ 100 := by
  simpa [roundTo1_hundred] using roundTo1_mono h

/-- A ratio of a part over a positive whole, scaled to a percentage, stays in
`[0, 100]` after rounding. -/
theorem rate_bounds {c p : Nat} (hcp : c ≤ p) :
    0 ≤ roundTo1 (if 0 < p then (c : ℚ) / p * 100 else 0) ∧
      roundTo1 (if 0 < p then (c : ℚ) / p * 100 else 0) ≤ 100 := by
  by_cases hp : 0 < p
  · simp only [if_pos hp]
    have hp' : (0 : ℚ) < p := by exact_mod_cast hp
    have hcp' : (c : ℚ) ≤ p := by exact_mod_cast hcp
    have h0 : 0 ≤ (c : ℚ) / p * 100 := by positivity
    have h100 : (c : ℚ) / p * 100 ≤ 100 := by
      rw [div_mul_eq_mul_div, div_le_iff₀ hp']
      nlinarith
    exact ⟨roundTo1_nonneg h0, roundTo1_le_hundred h100⟩
  · simp [if_neg hp, roundTo1_zero]

/-- **C3.** For every event log, period and threshold, `get_monthly_metrics`
returns `churn_rate = churned/previous_active*100` and
`retention_rate = retained/previous_active*100` (each rounded to one decimal)
when `previous_active_users > 0`; both rates lie in `[0, 100]`; and both are
`0` whenever `previous_active_users = 0` (the zero-denominator case is guarded
by the conditional expression, not an exception — the embedding is total). -/
theorem C3_rates (db : List Event) (P : Month) (T : Nat) :
    (0 < (getMonthlyMetrics db P T).previous_active_users →
        (getMonthlyMetrics db P T).churn_rate
            = roundTo1 (((getMonthlyMetrics db P T).churned_users : ℚ)
                / ((getMonthlyMetrics db P T).previous_active_users : ℚ) * 100) ∧
        (getMonthlyMetrics db P T).retention_rate
            = roundTo1 (((getMonthlyMetrics db P T).retained_users : ℚ)
                / ((getMonthlyMetrics db P T).previous_active_users : ℚ) * 100)) ∧
    (0 ≤ (getMonthlyMetrics db P T).churn_rate ∧
        (getMonthlyMetrics db P T).churn_rate ≤ 100) ∧
    (0 ≤ (getMonthlyMetrics db P T).retention_rate ∧
        (getMonthlyMetrics db P T).retention_rate ≤ 100) ∧
    ((getMonthlyMetrics db P T).previous_active_users = 0 →
        (getMonthlyMetrics db P T).churn_rate = 0 ∧
        (getMonthlyMetrics db P T).retention_rate = 0) := by
  have hchurn : ((activeSet db (getPreviousMonth P) T) \ (activeSet db P T)).card
      ≤ (activeSet db (getPreviousMonth P) T).card :=
    Finset.card_le_card (Finset.sdiff_subset)
  have hret : ((activeSet db (getPreviousMonth P) T) ∩ (activeSet db P T)).card
      ≤ (activeSet db (getPreviousMonth P) T).card :=
    Finset.card_le_card (Finset.inter_subset_left)
  simp only [getMonthlyMetrics]
  refine ⟨fun hpos => ⟨by rw [if_pos hpos], by rw [if_pos hpos]⟩,
    rate_bounds hchurn, rate_bounds hret, fun hzero => ?_⟩
  have hz : ¬ (0 < (activeSet db (getPreviousMonth P) T).card) := by omega
  exact ⟨by rw [if_neg hz, roundTo1_zero], by rw [if_neg hz, roundTo1_zero]⟩

/-- Witness for C3 on the spec §8 example log: previous-active is 4 > 0 and
both rates evaluate to 50. -/
theorem C3_rates_witness :
    (getMonthlyMetrics sampleDb ⟨2024, 2⟩ 1).churn_rate
        = roundTo1 (((getMonthlyMetrics sampleDb ⟨2024, 2⟩ 1).churned_users : ℚ)
            / ((getMonthlyMetrics sampleDb ⟨2024, 2⟩ 1).previous_active_users : ℚ) * 100) ∧
    0 ≤ (getMonthlyMetrics sampleDb ⟨2024, 2⟩ 1).churn_rate ∧
    (getMonthlyMetrics sampleDb ⟨2024, 2⟩ 1).retention_rate ≤ 100 :=
  ⟨((C3_rates sampleDb ⟨2024, 2⟩ 1).1 (by decide)).1,
   (C3_rates sampleDb ⟨2024, 2⟩ 1).2.1.1,
   (C3_rates sampleDb ⟨2024, 2⟩ 1).2.2.1.2⟩

/-! ## Churn trends (`get_churn_trends`) -/

/-- One row of the `trends` list built at analytics.py:239-244, from the
metrics of the later month of a consecutive pair. -/
structure TrendPoint where
  month : Month
  churn_rate : ℚ
  active_users : Nat
  churned_users : Nat
deriving DecidableEq, Repr

/-- The trend row the loop appends for a month (`metrics.get` lookups hit
fields that are always present in the metrics dictionary). -/
def trendPoint (db : List Event) (m : Month) (threshold : Nat) : TrendPoint :=
  let metrics := getMonthlyMetrics db m threshold
  { month := m, churn_rate := metrics.churn_rate,
    active_users := metrics.active_users, churned_users := metrics.churned_users }

/-- Return value of `get_churn_trends` (analytics.py:228-249). -/
structure Trends where
  months : List Month
  trends : List TrendPoint
deriving DecidableEq, Repr

/-- `get_churn_trends`: the loop `for i in range(1, len(months))` visits
exactly the tail of `months` in order, appending one trend row per visited
month; the function also returns `months[1:]`. -/
def getChurnTrends (db : List Event) (months : List Month) (threshold : Nat) : Trends :=
  { months := months.tail
    trends := months.tail.map (fun m => trendPoint db m threshold) }

instance : IsTrans Month (fun a b => a.key < b.key) :=
  ⟨fun _ _ _ => Nat.lt_trans⟩

/-- **C7.** For an input list of `N ≥ 2` months in ascending order,
`get_churn_trends` returns exactly `N-1` trend rows; row `i` is computed by
`get_monthly_metrics` on the later month `months[i+1]` of the `i`-th
consecutive pair; and the first input month never itself appears as a trend
row. -/
theorem C7_trend_rows (db : List Event) (T : Nat) (months : List Month)
    (hlen : 2 ≤ months.length)
    (hasc : months.Chain' (fun a b => a.key < b.key)) :
    (getChurnTrends db months T).trends.length = months.length - 1 ∧
    (∀ i : Nat, (getChurnTrends db months T).trends[i]?
        = (months[i + 1]?).map (fun m => trendPoint db m T)) ∧
    (∀ m0, months.head? = some m0 →
        m0 ∉ (getChurnTrends db months T).trends.map TrendPoint.month) := by
  refine ⟨by simp [getChurnTrends], fun i => ?_, fun m0 hm0 hmem => ?_⟩
  · simp [getChurnTrends, ← List.drop_one, List.getElem?_drop, Nat.add_comm]
  · cases months with
    | nil => simp at hm0
    | cons hd tl =>
      have hm0' : m0 = hd := by simpa using hm0.symm
      subst hm0'
      have hmap : (getChurnTrends db (m0 :: tl) T).trends.map TrendPoint.month = tl := by
        simp [getChurnTrends, trendPoint, List.map_map, Function.comp_def]
      rw [hmap] at hmem
      have hp : (m0 :: tl).Pairwise (fun a b => a.key < b.key) :=
        List.chain'_iff_pairwise.mp hasc
      exact lt_irrefl m0.key ((List.pairwise_cons.mp hp).1 m0 hmem)

/-- Three consecutive months used by the C7 witness. -/
def monthsJan3 : List Month := [⟨2024, 1⟩, ⟨2024, 2⟩, ⟨2024, 3⟩]

/-- The witness months are strictly ascending. -/
theorem monthsJan3_ascending : monthsJan3.Chain' (fun a b => a.key < b.key) := by
  norm_num [monthsJan3, List.chain'_cons, Month.key]

/-- Witness for C7: a three-month ascending input yields two trend rows, the
first is computed on the second input month, and 2024-01 is not a trend row. -/
theorem C7_trend_rows_witness :
    (getChurnTrends sampleDb monthsJan3 1).trends.length = 2 ∧
    (getChurnTrends sampleDb monthsJan3 1).trends[0]?
        = (monthsJan3[1]?).map (fun m => trendPoint sampleDb m 1) ∧
    (⟨2024, 1⟩ : Month) ∉ (getChurnTrends sampleDb monthsJan3 1).trends.map TrendPoint.month :=
  ⟨by simpa [monthsJan3] using
      (C7_trend_rows sampleDb 1 monthsJan3 (by decide) monthsJan3_ascending).1,
   (C7_trend_rows sampleDb 1 monthsJan3 (by decide) monthsJan3_ascending).2.1 0,
   (C7_trend_rows sampleDb 1 monthsJan3 (by decide) monthsJan3_ascending).2.2 ⟨2024, 1⟩ rfl⟩

/-- **C9 counterexample.**  The claim's parenthetical says December rolls back
to January of `year-1`; `_get_previous_month` actually maps 2024-12 to
2024-11 (one calendar month back), not to 2023-01. -/
theorem C9_counterexample :
    getPreviousMonth ⟨2024, 12⟩ = ⟨2024, 11⟩ ∧ getPreviousMonth ⟨2024, 12⟩ ≠ ⟨2023, 1⟩ := by
  decide

/-- **C9 (amended).** `get_monthly_metrics` computes the previous period as the
target period minus one calendar month, with *January* rolling back to
*December* of `year-1` (and every other month merely decrementing). -/
theorem C9_previous_month (m : Month) :
    (m.month = 1 → getPreviousMonth m = ⟨m.year - 1, 12⟩) ∧
    (m.month ≠ 1 → getPreviousMonth m = ⟨m.year, m.month - 1⟩) := by
  constructor <;> intro h <;> simp [getPreviousMonth, h]

/-- Witness for the amended C9: January 2025 rolls back to December 2024, and
December 2024 to November 2024. -/
theorem C9_previous_month_witness :
    getPreviousMonth ⟨2025, 1⟩ = ⟨2024, 12⟩ ∧ getPreviousMonth ⟨2024, 12⟩ = ⟨2024, 11⟩ :=
  ⟨(C9_previous_month ⟨2025, 1⟩).1 rfl, (C9_previous_month ⟨2024, 12⟩).2 (by decide)⟩

/-! ## Segment churn (`_analyze_segment`, `_analyze_combined_segments`) -/

/-- `self.min_sample_size = 50`, set in `ChurnAnalyzer.__init__` and passed to the
segment queries as `:min_sample`. -/
def minSampleSize : Nat := 50

/-- Modelled from the spec: the helper `_get_month_subtract(column, n)` is called at
analytics.py:328/692/804/896/993 but is defined nowhere in the repository (claim C2).
Per the spec ("For every pair of consecutive months within `[start_period,
end_period]` ..."), it denotes the month `n` calendar months before `m`; every call
site uses `n = 1`, the previous calendar month. -/
def monthSubtract (m : Month) (n : Nat) : Month := getPreviousMonth^[n] m

/-- The `BETWEEN :start_month AND :end_month` filter of the segment queries.  The SQL
compares the 7-character `strftime('%Y-%m')` value with the 10-character
`f"{start_month}-01"` / `f"{end_month}-01"` parameters as strings, so the start month
itself fails the lower bound (`'YYYY-MM' < 'YYYY-MM-01'` lexicographically): the
filter keeps exactly the months strictly after `start` and at most `end`. -/
def inWindow (s e m : Month) : Bool := s.key < m.key && m.key ≤ e.key

/-- One `(segment_value, month, user_hash)` row of the `segment_monthly` CTE: the
distinct triples from events in the window whose selected attribute is non-NULL and
not 'Unknown'.  `attr` abstracts the interpolated `{segment_type}` column
(gender / age_band / channel), or the composite label of
`_analyze_combined_segments`. -/
def segmentMonthly (db : List Event) (attr : Event → Option String) (s e : Month) :
    List (String × Month × Nat) :=
  ((db.filter (fun x => inWindow s e x.month
        && decide (attr x ≠ none) && decide (attr x ≠ some "Unknown"))).map
      (fun x => ((attr x).getD "", x.month, x.user))).dedup

/-- The `month_pairs` CTE: distinct `(segment_value, month)` pairs of
`segment_monthly` with `month > :start_month` (the same string comparison as
`inWindow`'s lower bound); the paired previous month is `monthSubtract _ 1`. -/
def monthPairs (db : List Event) (attr : Event → Option String) (s e : Month) :
    List (String × Month) :=
  (((segmentMonthly db attr s e).map (fun t => (t.1, t.2.1))).dedup).filter
    (fun p => decide (s.key < p.2.key))

/-- `COUNT(DISTINCT user_hash)` of one segment's users in one month of
`segment_monthly` — the `prev_active` / `curr_active` CTEs (their `LEFT JOIN`
yields count 0 when the month has no rows). -/
def segMonthUsers (sm : List (String × Month × Nat)) (sv : String) (m : Month) : Nat :=
  ((sm.filter (fun t => decide (t.1 = sv ∧ t.2.1 = m))).map (fun t => t.2.2)).dedup.length

/-- The `churned` CTE: distinct previous-month users of the segment having no
current-month row (`cm.user_hash IS NULL` after the second `LEFT JOIN`). -/
def segChurned (sm : List (String × Month × Nat)) (sv : String) (curr : Month) : Nat :=
  ((sm.filter (fun t => decide (t.1 = sv ∧ t.2.1 = monthSubtract curr 1
      ∧ (sv, curr, t.2.2) ∉ sm))).map (fun t => t.2.2)).dedup.length

/-- `SUM(COALESCE(pa.previous_active, 0))` of the `aggregated` CTE: per segment
value, the per-month-pair previous-active counts summed (not re-deduplicated)
across all its month pairs. -/
def prevActiveSum (db : List Event) (attr : Event → Option String) (s e : Month)
    (sv : String) : Nat :=
  (((monthPairs db attr s e).filter (fun p => decide (p.1 = sv))).map
      (fun p => segMonthUsers (segmentMonthly db attr s e) sv (monthSubtract p.2 1))).sum

/-- `SUM(COALESCE(ca.current_active, 0))` of the `aggregated` CTE. -/
def currActiveSum (db : List Event) (attr : Event → Option String) (s e : Month)
    (sv : String) : Nat :=
  (((monthPairs db attr s e).filter (fun p => decide (p.1 = sv))).map
      (fun p => segMonthUsers (segmentMonthly db attr s e) sv p.2)).sum

/-- `SUM(COALESCE(ch.churned_users, 0))` of the `aggregated` CTE. -/
def churnedSum (db : List Event) (attr : Event → Option String) (s e : Month)
    (sv : String) : Nat :=
  (((monthPairs db attr s e).filter (fun p => decide (p.1 = sv))).map
      (fun p => segChurned (segmentMonthly db attr s e) sv p.2)).sum

/-- One dictionary of the list returned by `_analyze_segment`
(analytics.py:419-429) / `_analyze_combined_segments` (analytics.py:787-797). -/
structure SegmentRow where
  segment_value : String
  current_active : Nat
  previous_active : Nat
  churned_users : Nat
  churn_rate : ℚ
  is_uncertain : Bool
deriving DecidableEq, Repr

/-- The final `SELECT` of the segment queries: one row per segment value with
positive accumulated previous-active, the churn rate with its zero-denominator
guard (`ROUND(x, 1)` as `roundTo1`), the `is_uncertain` flag
(`previous_active_sum < :min_sample`; the single-attribute query renders it as
1/0, the combined one as true/false — both modelled as `Bool`), ordered by
churn rate descending (the SQL leaves tie order unspecified; `mergeSort` fixes
it deterministically). -/
def analyzeSegment (db : List Event) (attr : Event → Option String) (s e : Month) :
    List SegmentRow :=
  let svs := ((monthPairs db attr s e).map Prod.fst).dedup
  let rows := (svs.filter (fun sv => decide (0 < prevActiveSum db attr s e sv))).map
    (fun sv =>
      { segment_value := sv
        current_active := currActiveSum db attr s e sv
        previous_active := prevActiveSum db attr s e sv
        churned_users := churnedSum db attr s e sv
        churn_rate := if 0 < prevActiveSum db attr s e sv
          then roundTo1 ((churnedSum db attr s e sv : ℚ)
              / (prevActiveSum db attr s e sv : ℚ) * 100)
          else 0
        is_uncertain := decide (prevActiveSum db attr s e sv < minSampleSize) })
  rows.mergeSort (fun a b => decide (b.churn_rate ≤ a.churn_rate))

/-- The composite `gender || '/' || age_band || '/' || channel` label of
`_analyze_combined_segments`, `none` when any of the three is NULL or
'Unknown', so that the generic pipeline's non-NULL / non-'Unknown' filter
reproduces that query's `WHERE` clause (a composite label contains '/' and can
never equal the literal 'Unknown'). -/
def combinedAttr (x : Event) : Option String :=
  match x.gender, x.age_band, x.channel with
  | some g, some a, some c =>
      if g ≠ "Unknown" ∧ a ≠ "Unknown" ∧ c ≠ "Unknown"
      then some (g ++ "/" ++ a ++ "/" ++ c) else none
  | _, _, _ => none

/-- `_analyze_combined_segments` as an instance of the generic pipeline. -/
def analyzeCombinedSegments (db : List Event) (s e : Month) : List SegmentRow :=
  analyzeSegment db combinedAttr s e

/-- **C6.** Every row returned by the segment-churn analysis — any attribute
selector, hence in particular gender / age_band / channel and the combined
variant — has `is_uncertain = true` iff its accumulated previous-active over
the whole window is strictly below the fixed minimum sample size 50, and rows
with accumulated previous-active ≥ 50 have `is_uncertain = false`. -/
theorem C6_uncertain_iff (db : List Event) (attr : Event → Option String) (s e : Month)
    (row : SegmentRow) (hrow : row ∈ analyzeSegment db attr s e) :
    (row.is_uncertain = true ↔ row.previous_active < minSampleSize) ∧
    (minSampleSize ≤ row.previous_active → row.is_uncertain = false) := by
  simp only [analyzeSegment] at hrow
  rw [(List.mergeSort_perm _ _).mem_iff, List.mem_map] at hrow
  obtain ⟨sv, _hsv, heq⟩ := hrow
  subst heq
  constructor
  · simp
  · intro hge
    simp only [decide_eq_false_iff_not]
    simp only at hge
    omega

/-- Event log for the C6 witness: users 1 and 2 active in 2024-02, user 1 in
2024-03, all with gender `M`; over the window (2024-01, 2024-03] the segment
`M` accumulates previous-active 2 (< 50). -/
def segDb : List Event :=
  [ ev 1 2024 2 41 1, ev 2 2024 2 42 2, ev 1 2024 3 72 3 ]

/-- The single row the gender analysis produces on `segDb`. -/
def segRowM : SegmentRow :=
  { segment_value := "M", current_active := 3, previous_active := 2,
    churned_users := 1, churn_rate := 50, is_uncertain := true }

/-- Witness for C6: on `segDb` the gender analysis produces the row for
segment `M` with accumulated previous-active 2, churned 1, rate 50.0, flagged
uncertain, and the claimed iff holds on it (membership is transported through
the sorting permutation and then evaluated). -/
theorem C6_uncertain_iff_witness :
    segRowM ∈ analyzeSegment segDb Event.gender ⟨2024, 1⟩ ⟨2024, 3⟩ ∧
    (segRowM.is_uncertain = true ↔ segRowM.previous_active < minSampleSize) :=
  have hmem : segRowM ∈ analyzeSegment segDb Event.gender ⟨2024, 1⟩ ⟨2024, 3⟩ := by
    simp only [analyzeSegment]
    rw [(List.mergeSort_perm _ _).mem_iff]
    have hsvs : ((monthPairs segDb Event.gender ⟨2024, 1⟩ ⟨2024, 3⟩).map Prod.fst).dedup
        = ["M"] := by decide
    have h1 : prevActiveSum segDb Event.gender ⟨2024, 1⟩ ⟨2024, 3⟩ "M" = 2 := by decide
    have h2 : currActiveSum segDb Event.gender ⟨2024, 1⟩ ⟨2024, 3⟩ "M" = 3 := by decide
    have h3 : churnedSum segDb Event.gender ⟨2024, 1⟩ ⟨2024, 3⟩ "M" = 1 := by decide
    rw [hsvs]
    simp only [List.filter, h1, h2, h3, List.map, segRowM, minSampleSize]
    norm_num [SegmentRow.mk.injEq, roundTo1, round_eq]
  ⟨hmem, (C6_uncertain_iff segDb Event.gender ⟨2024, 1⟩ ⟨2024, 3⟩ segRowM hmem).1⟩

/-! ## Weekday-dominance labelling (`_analyze_weekday_pattern`) -/

/-- The five labels of the `CASE` in `_analyze_weekday_pattern`'s
`user_segments` CTE (analytics.py:822-828); the source strings are Korean
(weekday-heavy, weekend-heavy, weekday-only, weekend-only, mixed in order). -/
inductive WeekLabel where
  | weekdayHeavy
  | weekendHeavy
  | weekdayOnly
  | weekendOnly
  | mixed
deriving DecidableEq, Repr

/-- `COUNT(CASE WHEN strftime('%w') BETWEEN 1 AND 5 THEN 1 END)`: events on
Monday through Friday. -/
def weekdayCount (evs : List Event) : Nat :=
  evs.countP (fun x => decide (1 ≤ (x.dow : Nat)) && decide ((x.dow : Nat) ≤ 5))

/-- `COUNT(CASE WHEN strftime('%w') IN (0, 6) THEN 1 END)`: events on Sunday
or Saturday. -/
def weekendCount (evs : List Event) : Nat :=
  evs.countP (fun x => decide ((x.dow : Nat) = 0) || decide ((x.dow : Nat) = 6))

/-- The `CASE` of `_analyze_weekday_pattern`'s `user_segments` CTE, evaluated
top-down.  `NULLIF(total_count, 0)` makes the two ratio tests fail when
`total_count = 0`; in `ℚ` division by zero yields 0, which likewise fails
both tests. -/
def weekdaySegmentLabel (weekday_count weekend_count total_count : Nat) : WeekLabel :=
  if (weekday_count : ℚ) / (total_count : ℚ) ≥ 0.7 then .weekdayHeavy
  else if (weekend_count : ℚ) / (total_count : ℚ) ≥ 0.5 then .weekendHeavy
  else if weekday_count = total_count then .weekdayOnly
  else if weekend_count = total_count then .weekendOnly
  else .mixed

/-- The claim's description of the weekday-dominance labels, read as ordered
cases over the event total `wd + we` (every event falls on exactly one side),
with the percentage thresholds written as integer inequalities: ≥ 70% weekday
events → weekday-heavy, ≥ 50% weekend events → weekend-heavy, 100% on one
side → the corresponding -only label, otherwise mixed. -/
def claimWeekdayLabel (wd we : Nat) : WeekLabel :=
  if 7 * (wd + we) ≤ 10 * wd then .weekdayHeavy
  else if (wd + we) ≤ 2 * we then .weekendHeavy
  else if wd = wd + we then .weekdayOnly
  else if we = wd + we then .weekendOnly
  else .mixed

/-- Every event is counted on exactly one side: day-of-week 1-5 is a weekday,
0 and 6 are the weekend. -/
theorem weekday_partition (evs : List Event) :
    weekdayCount evs + weekendCount evs = evs.length := by
  induction evs with
  | nil => rfl
  | cons x xs ih =>
    have hd : (x.dow : Nat) < 7 := x.dow.isLt
    simp only [weekdayCount, weekendCount] at ih
    simp only [weekdayCount, weekendCount, List.countP_cons, List.length_cons,
      Bool.and_eq_true, Bool.or_eq_true, decide_eq_true_eq]
    split_ifs with h1 h2 h2 <;> omega

/-- The source's `CASE` agrees with the claim's ordered description whenever
the total is the (positive) sum of the two sides. -/
theorem weekday_label_eq (wd we : Nat) (h : 0 < wd + we) :
    weekdaySegmentLabel wd we (wd + we) = claimWeekdayLabel wd we := by
  have ht : (0 : ℚ) < ((wd + we : Nat) : ℚ) := by exact_mod_cast h
  have h1 : ((wd : ℚ) / ((wd + we : Nat) : ℚ) ≥ 0.7) ↔ (7 * (wd + we) ≤ 10 * wd) := by
    rw [ge_iff_le, le_div_iff₀ ht]
    constructor <;> intro hh
    · have h10 : (7 : ℚ) * ((wd + we : Nat) : ℚ) ≤ 10 * (wd : ℚ) := by
        push_cast at hh ⊢; linarith
      exact_mod_cast h10
    · have h10 : (7 : ℚ) * ((wd + we : Nat) : ℚ) ≤ 10 * (wd : ℚ) := by exact_mod_cast hh
      push_cast at h10 ⊢; linarith
  have h2 : ((we : ℚ) / ((wd + we : Nat) : ℚ) ≥ 0.5) ↔ ((wd + we) ≤ 2 * we) := by
    rw [ge_iff_le, le_div_iff₀ ht]
    constructor <;> intro hh
    · have h10 : ((wd + we : Nat) : ℚ) ≤ 2 * (we : ℚ) := by push_cast at hh ⊢; linarith
      exact_mod_cast h10
    · have h10 : ((wd + we : Nat) : ℚ) ≤ 2 * (we : ℚ) := by exact_mod_cast hh
      push_cast at h10 ⊢; linarith
  simp only [weekdaySegmentLabel, claimWeekdayLabel, h1, h2]

/-- **C8.** For any non-empty per-user-per-period event list, the weekday and
weekend counts partition the events, and the source's labelling `CASE` agrees
with the claim's ordered description ("weekday-heavy" iff ≥ 70% of the events
fall Mon-Fri, then "weekend-heavy" iff ≥ 50% fall Sat/Sun, then the 100%
one-side labels, else "mixed"); in particular 8 weekday events and 2 weekend
events yield "weekday-heavy". -/
theorem C8_weekday_dominance (evs : List Event) (hne : evs ≠ []) :
    weekdayCount evs + weekendCount evs = evs.length ∧
    weekdaySegmentLabel (weekdayCount evs) (weekendCount evs) evs.length
        = claimWeekdayLabel (weekdayCount evs) (weekendCount evs) ∧
    weekdaySegmentLabel 8 2 10 = .weekdayHeavy := by
  have hpart := weekday_partition evs
  have hpos : 0 < weekdayCount evs + weekendCount evs := by
    rw [hpart]
    exact List.length_pos.mpr hne
  refine ⟨hpart, ?_, ?_⟩
  · rw [← hpart]
    exact weekday_label_eq _ _ hpos
  · norm_num [weekdaySegmentLabel]

/-- Ten events of one user in 2024-01: eight on weekdays (Mon-Fri), two on
the weekend, matching the spec's weekday-dominance example. -/
def weekdayDb : List Event :=
  [ ev 1 2024 1 1 1, ev 1 2024 1 2 2, ev 1 2024 1 3 3, ev 1 2024 1 4 4,
    ev 1 2024 1 5 5, ev 1 2024 1 8 1, ev 1 2024 1 9 2, ev 1 2024 1 10 3,
    ev 1 2024 1 6 6, ev 1 2024 1 7 0 ]

/-- Witness for C8: on the ten-event log the counts are 8 and 2 and the label
is weekday-heavy (80% ≥ 70%). -/
theorem C8_weekday_dominance_witness :
    weekdayCount weekdayDb + weekendCount weekdayDb = weekdayDb.length ∧
    weekdayCount weekdayDb = 8 ∧ weekendCount weekdayDb = 2 ∧
    weekdaySegmentLabel (weekdayCount weekdayDb) (weekendCount weekdayDb) weekdayDb.length
        = .weekdayHeavy :=
  ⟨(C8_weekday_dominance weekdayDb (by decide)).1, by decide, by decide, by
    have h := (C8_weekday_dominance weekdayDb (by decide)).2.2
    have h8 : weekdayCount weekdayDb = 8 := by decide
    have h2 : weekendCount weekdayDb = 2 := by decide
    have hlen : weekdayDb.length = 10 := by decide
    rw [h8, h2, hlen]
    exact h⟩

/-! ## Reactivation (`_analyze_reactivation`) -/

/-- The dictionary returned by `_analyze_reactivation` (analytics.py:490-493). -/
structure Reactivation where
  reactivated_users : Nat
  gap_days : Nat
deriving DecidableEq, Repr

/-- Modelled from the spec: `_get_date_subtract_days(':month_start', gap_days)` is
called at analytics.py:461 but defined nowhere in the repository (claim C2).  Per
the spec ("most recent prior activity ... occurred more than `gap_days` ... before
the period start"), it denotes the timestamp `gap_days` days before the period
start. -/
def dateSubtractDays (day : Nat) (gap : Nat) : Int := (day : Int) - (gap : Int)

/-- The `user_last_activity_before` CTE: `MAX(e.created_at)` over a user's events
strictly before the period start (`LEFT JOIN ... e.created_at < :month_start`;
`none` models the NULL row of a user with no prior events). -/
def lastActivityBefore (db : List Event) (u : Nat) (monthStart : Nat) : Option Nat :=
  ((db.filter (fun x => decide (x.user = u ∧ x.day < monthStart))).map (fun x => x.day)).max?

/-- The `current_month_active` CTE: distinct users with an event in
`[:month_start, :month_end]`.  (The source sets `month_end` to day 31 of the
month — a commented simplification; the embedding takes both bounds as day
indices.) -/
def currentMonthActive (db : List Event) (monthStart monthEnd : Nat) : Finset Nat :=
  ((db.filter (fun x => decide (monthStart ≤ x.day ∧ x.day ≤ monthEnd))).map
    (fun x => x.user)).toFinset

/-- The final `WHERE` of `_analyze_reactivation`: `last_activity_before IS NOT
NULL AND last_activity_before < {month_start - gap_days}` (modelled date
subtraction). -/
def isReactivated (db : List Event) (u : Nat) (monthStart gapDays : Nat) : Bool :=
  match lastActivityBefore db u monthStart with
  | none => false
  | some last => decide ((last : Int) < dateSubtractDays monthStart gapDays)

/-- `_analyze_reactivation` (analytics.py:455-493), with the missing date helper
modelled from the spec: the count of current-period users passing the
dormancy-gap filter. -/
def analyzeReactivationModelled (db : List Event) (monthStart monthEnd gapDays : Nat) :
    Reactivation :=
  { reactivated_users :=
      ((currentMonthActive db monthStart monthEnd).filter
        (fun u => isReactivated db u monthStart gapDays = true)).card
    gap_days := gapDays }

/-- `lastActivityBefore` returns `some last` exactly when `last` is the day of a
prior event of the user and no prior event is later. -/
theorem lastActivityBefore_spec (db : List Event) (u ms last : Nat) :
    lastActivityBefore db u ms = some last ↔
      (∃ x ∈ db, (x.user = u ∧ x.day < ms) ∧ x.day = last) ∧
      ∀ x ∈ db, x.user = u → x.day < ms → x.day ≤ last := by
  unfold lastActivityBefore
  rw [List.max?_eq_some_iff]
  · simp only [List.mem_map, List.mem_filter, decide_eq_true_eq]
    constructor
    · rintro ⟨⟨x, ⟨hx, hp⟩, hlast⟩, hub⟩
      exact ⟨⟨x, hx, hp, hlast⟩, fun y hy hu hd => hub y.day ⟨y, ⟨hy, hu, hd⟩, rfl⟩⟩
    · rintro ⟨⟨x, hx, hp, hlast⟩, hub⟩
      exact ⟨⟨x, ⟨hx, hp⟩, hlast⟩, by rintro b ⟨y, ⟨hy, hu, hd⟩, rfl⟩; exact hub y hy hu hd⟩
  · exact fun a => Nat.le_refl a
  · exact fun a b => max_choice a b
  · intro a b c
    exact Nat.max_le

/-- `lastActivityBefore` returns NULL exactly when the user has no event before
the period start. -/
theorem lastActivityBefore_none (db : List Event) (u ms : Nat) :
    lastActivityBefore db u ms = none ↔ ∀ x ∈ db, x.user = u → ¬ x.day < ms := by
  unfold lastActivityBefore
  rw [List.max?_eq_none_iff]
  simp only [List.map_eq_nil_iff, List.filter_eq_nil_iff, decide_eq_true_eq]
  constructor
  · intro h x hx hu hd
    exact h x hx ⟨hu, hd⟩
  · rintro h x hx ⟨hu, hd⟩
    exact h x hx hu hd

/-- Spec §8's reactivation example: last activity on day 0, the target month
starts on day 31, the user returns on day 45 — a 45-day dormancy, counted with
`gap_days = 30`. -/
def reactDb45 : List Event := [ ev 1 2024 1 0 1, ev 1 2024 2 45 2 ]

/-- The user returning after only a 25-day dormancy: last prior activity on day
20, return on day 45 — not counted. -/
def reactDb25 : List Event := [ ev 1 2024 1 20 1, ev 1 2024 2 45 2 ]

/-- **C5.** `reactivated_users` counts exactly the users active in the target
period whose most recent activity strictly before the period start occurred
more than `gap_days` before the period start (equivalently: who have prior
activity, all of it more than `gap_days` before the start); the spec's 45-day
dormancy user is counted with `gap_days = 30`, the 25-day one is not. -/
theorem C5_reactivated (db : List Event) (monthStart monthEnd gapDays : Nat) :
    (analyzeReactivationModelled db monthStart monthEnd gapDays).reactivated_users
        = ((allUsers db).filter (fun u =>
            (∃ x ∈ db, x.user = u ∧ monthStart ≤ x.day ∧ x.day ≤ monthEnd) ∧
            (∃ x ∈ db, x.user = u ∧ x.day < monthStart) ∧
            (∀ x ∈ db, x.user = u → x.day < monthStart →
              (monthStart : Int) - (x.day : Int) > (gapDays : Int)))).card ∧
    (analyzeReactivationModelled reactDb45 31 61 30).reactivated_users = 1 ∧
    (analyzeReactivationModelled reactDb25 31 61 30).reactivated_users = 0 := by
  refine ⟨?_, by decide, by decide⟩
  apply congrArg Finset.card
  ext u
  simp only [Finset.mem_filter, currentMonthActive, allUsers, List.mem_toFinset,
    List.mem_map, List.mem_filter, decide_eq_true_eq]
  constructor
  · rintro ⟨⟨x, ⟨hx, hday⟩, hxu⟩, hreact⟩
    rcases hl : lastActivityBefore db u monthStart with _ | last
    · rw [isReactivated, hl] at hreact
      exact absurd hreact (by simp)
    · rw [isReactivated, hl] at hreact
      simp only [decide_eq_true_eq, dateSubtractDays] at hreact
      obtain ⟨⟨y, hy, ⟨hyu, hyd⟩, hylast⟩, hub⟩ := (lastActivityBefore_spec db u monthStart last).mp hl
      refine ⟨⟨x, hx, hxu⟩, ⟨x, hx, hxu, hday.1, hday.2⟩, ⟨y, hy, hyu, hyd⟩, ?_⟩
      intro z hz hzu hzd
      have hzle : z.day ≤ last := hub z hz hzu hzd
      omega
  · rintro ⟨_, ⟨x, hx, hxu, hxd1, hxd2⟩, ⟨y, hy, hyu, hyd⟩, hall⟩
    refine ⟨⟨x, ⟨hx, hxd1, hxd2⟩, hxu⟩, ?_⟩
    rcases hl : lastActivityBefore db u monthStart with _ | last
    · exact absurd ((lastActivityBefore_none db u monthStart).mp hl y hy hyu) (by omega)
    · obtain ⟨⟨z, hz, ⟨hzu, hzd⟩, hzlast⟩, _⟩ := (lastActivityBefore_spec db u monthStart last).mp hl
      rw [isReactivated, hl]
      simp only [decide_eq_true_eq, dateSubtractDays]
      have := hall z hz hzu hzd
      omega

/-! ## Runtime attribute lookups and `run_full_analysis` (claims C2, C10)

`_analyze_segment`'s body is additionally mis-indented at analytics.py:330
(`query = text(...)` is indented one level deeper than the preceding
statement), which a Python parser rejects at import time; the embedding models
the per-method semantics the claims describe, with `self` attribute lookups
made explicit. -/

/-- The Python exception values that the embedding tracks. -/
inductive PyError where
  | attributeError (missing : String)
deriving DecidableEq, Repr

/-- The method names bound by `def` statements in the body of class
`ChurnAnalyzer` (analytics.py:10-1088) — the attributes a `self._name(...)`
lookup can resolve. -/
def churnAnalyzerMethods : List String :=
  [ "__init__", "_get_month_trunc", "_get_extract_dow", "_get_extract_hour",
    "run_full_analysis", "get_monthly_metrics", "get_churn_trends",
    "get_segment_analysis", "generate_monthly_report", "_analyze_segment",
    "_analyze_inactivity", "_analyze_reactivation", "_generate_insights",
    "_generate_actions", "_check_data_quality", "_get_previous_month",
    "_generate_month_range", "_calculate_reactivated_users",
    "_calculate_long_term_inactive", "_generate_llm_insights_and_actions",
    "_analyze_combined_segments", "_analyze_weekday_pattern",
    "_analyze_time_pattern", "_analyze_action_type_segment" ]

/-- `self.name`: succeeds iff the class defines the method; otherwise Python
raises `AttributeError`. -/
def callMethod (name : String) : Except PyError Unit :=
  if name ∈ churnAnalyzerMethods then .ok () else .error (.attributeError name)

/-- Sequential evaluation of the helper attribute lookups at the top of a
method body. -/
def callMethods : List String → Except PyError Unit
  | [] => .ok ()
  | n :: ns => do
      let _ ← callMethod n
      callMethods ns

/-- Helper lookups at the top of `_analyze_segment` (analytics.py:327-328). -/
def analyzeSegmentLookups : List String := ["_get_month_trunc", "_get_month_subtract"]

/-- Helper lookups of `_analyze_combined_segments` (analytics.py:691-692). -/
def analyzeCombinedLookups : List String := ["_get_month_trunc", "_get_month_subtract"]

/-- Helper lookups of `_analyze_weekday_pattern` (analytics.py:802-804). -/
def analyzeWeekdayLookups : List String :=
  ["_get_month_trunc", "_get_extract_dow", "_get_month_subtract"]

/-- Helper lookups of `_analyze_time_pattern` (analytics.py:894-896). -/
def analyzeTimeLookups : List String :=
  ["_get_month_trunc", "_get_extract_hour", "_get_month_subtract"]

/-- Helper lookups of `_analyze_action_type_segment` (analytics.py:992-993). -/
def analyzeActionTypeLookups : List String := ["_get_month_trunc", "_get_month_subtract"]

/-- `_analyze_segment` at runtime: the helper lookups are evaluated before the
query (embedded as `analyzeSegment`) can run. -/
def analyzeSegmentE (db : List Event) (attr : Event → Option String) (s e : Month) :
    Except PyError (List SegmentRow) := do
  let _ ← callMethods analyzeSegmentLookups
  pure (analyzeSegment db attr s e)

/-- `_analyze_combined_segments` at runtime. -/
def analyzeCombinedSegmentsE (db : List Event) (s e : Month) :
    Except PyError (List SegmentRow) := do
  let _ ← callMethods analyzeCombinedLookups
  pure (analyzeCombinedSegments db s e)

/-- `_analyze_weekday_pattern` at runtime; `body` abstracts the whole rest of
the method (its query over the labels of `weekdaySegmentLabel`), which the
theorems quantify over because it is never reached. -/
def analyzeWeekdayPatternE (body : List SegmentRow) : Except PyError (List SegmentRow) := do
  let _ ← callMethods analyzeWeekdayLookups
  pure body

/-- `_analyze_time_pattern` at runtime; `body` abstracts the unreached query. -/
def analyzeTimePatternE (body : List SegmentRow) : Except PyError (List SegmentRow) := do
  let _ ← callMethods analyzeTimeLookups
  pure body

/-- `_analyze_action_type_segment` at runtime; `body` abstracts the unreached
query. -/
def analyzeActionTypeSegmentE (body : List SegmentRow) : Except PyError (List SegmentRow) := do
  let _ ← callMethods analyzeActionTypeLookups
  pure body

/-- `_analyze_reactivation` at runtime: line 461 looks up the undefined
`self._get_date_subtract_days` before the query (embedded with the modelled
helper as `analyzeReactivationModelled`) can run. -/
def analyzeReactivationE (db : List Event) (monthStart monthEnd gapDays : Nat) :
    Except PyError Reactivation := do
  let _ ← callMethod "_get_date_subtract_days"
  pure (analyzeReactivationModelled db monthStart monthEnd gapDays)

/-- A user's global `MAX(created_at)` (the `HAVING` subquery of
`_analyze_inactivity`). -/
def userLastActivity (db : List Event) (u : Nat) : Option Nat :=
  ((db.filter (fun x => decide (x.user = u))).map (fun x => x.day)).max?

/-- `COUNT(DISTINCT user_hash)` of users whose last activity predates the
cutoff. -/
def inactiveCount (db : List Event) (cutoff : Int) : Nat :=
  ((allUsers db).filter (fun u =>
      (match userLastActivity db u with
       | none => false
       | some last => decide ((last : Int) < cutoff)) = true)).card

/-- `_analyze_inactivity` (analytics.py:431-453): for each day threshold, the
users inactive since `month_start - days`.  The calendar conversion
`datetime.strptime(f"{month}-01", ...)` is abstracted by `cal`, mapping a
month to the absolute day index of its first day. -/
def analyzeInactivity (db : List Event) (cal : Month → Nat) (m : Month)
    (daysList : List Nat) : List (Nat × Nat) :=
  daysList.map (fun d => (d, inactiveCount db ((cal m : Int) - (d : Int))))

/-- `_calculate_long_term_inactive` (analytics.py:641-644): run
`_analyze_inactivity` for a single threshold and read the `inactive_{days}d`
entry back (default 0). -/
def calculateLongTermInactive (db : List Event) (cal : Month → Nat) (m : Month)
    (days : Nat) : Nat :=
  ((analyzeInactivity db cal m [days]).lookup days).getD 0

/-- `_calculate_reactivated_users` (analytics.py:636-639): delegate to
`_analyze_reactivation` with the default 30-day gap (`month_end` is day 31 of
the month, i.e. 30 days after its first day) and extract the count. -/
def calculateReactivatedUsersE (db : List Event) (cal : Month → Nat) (m : Month) :
    Except PyError Nat := do
  let r ← analyzeReactivationE db (cal m) (cal m + 30) 30
  pure r.reactivated_users

/-- The full dictionary `get_monthly_metrics` would return (lines 212-226):
the query-computed core plus the two helper-computed cohort counts. -/
structure MetricsFull where
  core : Metrics
  reactivated_users : Nat
  long_term_inactive : Nat
deriving DecidableEq, Repr

/-- `get_monthly_metrics` at runtime: the SQL query and the rate arithmetic
succeed (embedded as `getMonthlyMetrics`), then line 207 calls
`_calculate_reactivated_users`; the method has no try/except, so the
`AttributeError` raised there propagates. -/
def getMonthlyMetricsE (db : List Event) (cal : Month → Nat) (m : Month)
    (threshold : Nat) : Except PyError MetricsFull := do
  let core := getMonthlyMetrics db m threshold
  let reactivated ← calculateReactivatedUsersE db cal m
  let longTerm := calculateLongTermInactive db cal m 90
  pure { core := core, reactivated_users := reactivated, long_term_inactive := longTerm }

/-- `get_churn_trends` at runtime: every loop iteration calls
`get_monthly_metrics` and lets its exception propagate. -/
def getChurnTrendsE (db : List Event) (cal : Month → Nat) (months : List Month)
    (threshold : Nat) : Except PyError Trends := do
  let points ← months.tail.mapM (fun mo => do
    let met ← getMonthlyMetricsE db cal mo threshold
    pure ({ month := mo, churn_rate := met.core.churn_rate,
            active_users := met.core.active_users,
            churned_users := met.core.churned_users } : TrendPoint))
  pure { months := months.tail, trends := points }

/-- `(year, month) <= (end_year, end_month)` — the tuple comparison of
`_generate_month_range`'s `while` loop. -/
def monthLe (a b : Month) : Bool :=
  a.year < b.year || (a.year == b.year && a.month ≤ b.month)

/-- Successor month, as computed at analytics.py:629-632. -/
def nextMonth (m : Month) : Month :=
  if m.month + 1 > 12 then ⟨m.year + 1, 1⟩ else ⟨m.year, m.month + 1⟩

/-- The `while` loop of `_generate_month_range`, with an explicit fuel bound
(each iteration strictly increases the 12-adic month index, so the bound
suffices for every calendar input). -/
def monthRangeAux : Nat → Month → Month → List Month
  | 0, _, _ => []
  | fuel + 1, cur, endM =>
      if monthLe cur endM then cur :: monthRangeAux fuel (nextMonth cur) endM else []

/-- `_generate_month_range` (analytics.py:618-634). -/
def generateMonthRange (startM endM : Month) : List Month :=
  monthRangeAux ((endM.year + 1) * 12 + endM.month + 1) startM endM

/-- The segment-strategy toggle map passed to `run_full_analysis` (the
`segments.get(_, False)` flags of lines 74-87). -/
structure SegmentConfig where
  gender : Bool
  age_band : Bool
  channel : Bool
  combined : Bool
  weekday_pattern : Bool
  time_pattern : Bool
  action_type : Bool

/-- The `segment_analysis` dictionary of `run_full_analysis`: one optional
entry per toggled strategy. -/
structure SegmentAnalysis where
  gender : Option (List SegmentRow)
  age_band : Option (List SegmentRow)
  channel : Option (List SegmentRow)
  combined : Option (List SegmentRow)
  weekday_pattern : Option (List SegmentRow)
  time_pattern : Option (List SegmentRow)
  action_type : Option (List SegmentRow)

/-- The analytic components of the success dictionary of `run_full_analysis`
(lines 115-133).  `analysis_id`, `timestamp` and `execution_time_seconds` are
wall-clock values, and `insights` / `actions` / `data_quality` are the
LLM-service payloads — outside the embedding, but present in `successKeys`. -/
structure FullResult where
  metrics : MetricsFull
  trends : Trends
  segments : SegmentAnalysis
  inactivity : List (Nat × Nat)
  reactivation : Reactivation

/-- The keys of the success dictionary returned at analytics.py:115-133. -/
def successKeys : List String :=
  [ "analysis_id", "timestamp", "config", "metrics", "trends", "segments",
    "inactivity", "reactivation", "insights", "actions", "data_quality",
    "execution_time_seconds" ]

/-- The keys of the error dictionary returned at analytics.py:136-140. -/
def errorKeys : List String := ["error", "timestamp", "execution_time_seconds"]

/-- The `try` body of `run_full_analysis` (analytics.py:64-133), in source
order; `weekdayBody` / `timeBody` / `actionBody` abstract the three segment
queries the embedding leaves unmodelled (they are never reached, and the
theorems quantify over them). -/
def runFullAnalysisE (db : List Event) (cal : Month → Nat) (startM endM : Month)
    (cfg : SegmentConfig) (inactivityDays : List Nat) (threshold : Nat)
    (weekdayBody timeBody actionBody : List SegmentRow) :
    Except PyError FullResult := do
  let metrics ← getMonthlyMetricsE db cal endM threshold
  let months := generateMonthRange startM endM
  let trends ← getChurnTrendsE db cal months threshold
  let segGender ← if cfg.gender
    then some <$> analyzeSegmentE db Event.gender startM endM else pure none
  let segAge ← if cfg.age_band
    then some <$> analyzeSegmentE db Event.age_band startM endM else pure none
  let segChannel ← if cfg.channel
    then some <$> analyzeSegmentE db Event.channel startM endM else pure none
  let segCombined ← if cfg.combined
    then some <$> analyzeCombinedSegmentsE db startM endM else pure none
  let segWeekday ← if cfg.weekday_pattern
    then some <$> analyzeWeekdayPatternE weekdayBody else pure none
  let segTime ← if cfg.time_pattern
    then some <$> analyzeTimePatternE timeBody else pure none
  let segAction ← if cfg.action_type
    then some <$> analyzeActionTypeSegmentE actionBody else pure none
  let inactivity := analyzeInactivity db cal endM inactivityDays
  let reactivation ← analyzeReactivationE db (cal endM) (cal endM + 30) 30
  pure { metrics := metrics, trends := trends,
         segments := ⟨segGender, segAge, segChannel, segCombined,
                      segWeekday, segTime, segAction⟩,
         inactivity := inactivity, reactivation := reactivation }

/-- What `run_full_analysis` hands back to its caller: the full dictionary on
success, or the `except` handler's three-key error dictionary (whose
`timestamp` / `execution_time_seconds` are wall-clock values outside the
embedding). -/
inductive AnalysisOutcome where
  | success (result : FullResult)
  | failure (error : PyError)

/-- The key set of the dictionary each outcome carries. -/
def AnalysisOutcome.keys : AnalysisOutcome → List String
  | .success _ => successKeys
  | .failure _ => errorKeys

/-- `run_full_analysis` (analytics.py:49-140): the whole body runs inside one
`try`, and any exception is converted to the error dictionary. -/
def runFullAnalysis (db : List Event) (cal : Month → Nat) (startM endM : Month)
    (cfg : SegmentConfig) (inactivityDays : List Nat) (threshold : Nat)
    (weekdayBody timeBody actionBody : List SegmentRow) : AnalysisOutcome :=
  match runFullAnalysisE db cal startM endM cfg inactivityDays threshold
      weekdayBody timeBody actionBody with
  | .ok r => .success r
  | .error e => .failure e

/-- **C2.** `_get_month_subtract` and `_get_date_subtract_days` are defined
nowhere in the class (whose `_analyze_segment` is moreover mis-indented at
line 330, rejected by the Python parser at import time), so every
segment-analysis method and `_analyze_reactivation` raise `AttributeError` on
every input — whatever the rest of their bodies would compute — hence
`get_monthly_metrics` never returns a metrics dictionary and
`run_full_analysis` always returns the error object, never a successful
analysis result. -/
theorem C2_missing_helpers :
    ("_get_month_subtract" ∉ churnAnalyzerMethods ∧
      "_get_date_subtract_days" ∉ churnAnalyzerMethods) ∧
    (∀ (db : List Event) (attr : Event → Option String) (s e : Month),
      analyzeSegmentE db attr s e = .error (.attributeError "_get_month_subtract")) ∧
    (∀ (db : List Event) (s e : Month),
      analyzeCombinedSegmentsE db s e = .error (.attributeError "_get_month_subtract")) ∧
    (∀ body, analyzeWeekdayPatternE body = .error (.attributeError "_get_month_subtract")) ∧
    (∀ body, analyzeTimePatternE body = .error (.attributeError "_get_month_subtract")) ∧
    (∀ body, analyzeActionTypeSegmentE body = .error (.attributeError "_get_month_subtract")) ∧
    (∀ (db : List Event) (ms me gap : Nat),
      analyzeReactivationE db ms me gap = .error (.attributeError "_get_date_subtract_days")) ∧
    (∀ (db : List Event) (cal : Month → Nat) (m : Month) (t : Nat),
      getMonthlyMetricsE db cal m t = .error (.attributeError "_get_date_subtract_days")) ∧
    (∀ (db : List Event) (cal : Month → Nat) (startM endM : Month) (cfg : SegmentConfig)
        (days : List Nat) (t : Nat) (wb tb ab : List SegmentRow),
      runFullAnalysis db cal startM endM cfg days t wb tb ab
        = .failure (.attributeError "_get_date_subtract_days")) := by
  refine ⟨⟨by decide, by decide⟩, fun db attr s e => rfl, fun db s e => rfl,
    fun body => rfl, fun body => rfl, fun body => rfl, fun db ms me gap => rfl,
    fun db cal m t => rfl, fun db cal startM endM cfg days t wb tb ab => rfl⟩

/-- **C10.** `run_full_analysis` is atomic from the caller's viewpoint: every
invocation yields a dictionary bearing either the complete success key set or
exactly the three-key error set `{error, timestamp, execution_time_seconds}` —
never a partial shape mixing metric keys with an error key. -/
theorem C10_atomic_result (db : List Event) (cal : Month → Nat) (startM endM : Month)
    (cfg : SegmentConfig) (days : List Nat) (t : Nat) (wb tb ab : List SegmentRow) :
    ((runFullAnalysis db cal startM endM cfg days t wb tb ab).keys = successKeys ∨
      (runFullAnalysis db cal startM endM cfg days t wb tb ab).keys = errorKeys) ∧
    "error" ∉ successKeys ∧
    "metrics" ∉ errorKeys ∧ "trends" ∉ errorKeys ∧ "segments" ∉ errorKeys ∧
    "inactivity" ∉ errorKeys ∧ "reactivation" ∉ errorKeys ∧
    "insights" ∉ errorKeys ∧ "actions" ∉ errorKeys ∧ "data_quality" ∉ errorKeys := by
  refine ⟨?_, by decide, by decide, by decide, by decide, by decide, by decide,
    by decide, by decide, by decide⟩
  cases h : runFullAnalysis db cal startM endM cfg days t wb tb ab with
  | success r => exact Or.inl rfl
  | failure e => exact Or.inr rfl

end Churn
